import Mathlib

/-!
Verification development for the Quizly backend: a shallow embedding of the
quiz-generation pipeline (quiz_app/services/quiz_builder.py), the persistence
serializers (quiz_app/api/serializers.py), the quiz API views
(quiz_app/api/views.py) and the cookie-JWT auth flow (auth_app), together with
theorems settling the specification claims about them.

Python strings are modelled as `List Char`, Python exceptions as an explicit
`PyExc` sum carried in `Except`, and external collaborators (yt_dlp, whisper,
the Gemini client, json.loads, SimpleJWT token validation) as function
parameters, matching the spec's narrow-contract treatment of them.

The file is organised as definitions first, then the lemmas and theorems.
-/

namespace Quizly

/-! ## Python string primitives and `_strip_code_fences` -/

/-- A Python `str`, modelled as its list of characters. -/
abbrev Str := List Char

/-- ASCII whitespace as recognised by Python's `str.strip` and the regex
class `\s` (space, tab, newline, carriage return, vertical tab, form feed);
the source only ever strips ASCII model output. -/
def pyIsSpace (c : Char) : Bool :=
  c == ' ' || c == '\t' || c == '\n' || c == '\r' || c == '\x0b' || c == '\x0c'

/-- The backtick character (code point 96). -/
def btick : Char := Char.ofNat 96

/-- Three backticks, the fenced-code-block marker. -/
def fence : Str := [btick, btick, btick]

/-- Python `str.lstrip()` (whitespace-only form). -/
def pyStripLeft (s : Str) : Str := s.dropWhile pyIsSpace

/-- Python `str.rstrip()` (whitespace-only form). -/
def pyStripRight (s : Str) : Str := (s.reverse.dropWhile pyIsSpace).reverse

/-- Python `str.strip()` (whitespace-only form). -/
def pyStrip (s : Str) : Str := pyStripRight (pyStripLeft s)

/-- Effect of `re.sub(r'^\s*` followed by three backticks followed by
`[^\n]*\n?', '', s, count=1)`: the pattern is anchored at the start, so the
single substitution removes leading whitespace, a three-backtick marker, the
rest of that line and one following newline, if these are present; otherwise
the string is unchanged. -/
def subLeadingFence (s : Str) : Str :=
  let t := s.dropWhile pyIsSpace
  if t.take 3 = fence then
    match (t.drop 3).dropWhile (fun c => c != '\n') with
    | '\n' :: r => r
    | r => r
  else s

/-- Whether the end-anchored pattern `\n?` three-backticks `\s*$` matches at
the head of the suffix `r` of the subject string: an optional newline, three
backticks, and then nothing but whitespace up to the end of the string (the
greedy `\s*` then consumes that whole whitespace tail). -/
def fenceEndHere (r : Str) : Prop :=
  (r.take 3 = fence ∧ (r.drop 3).all pyIsSpace = true)
  ∨ (r.head? = some '\n' ∧ r.tail.take 3 = fence ∧ (r.tail.drop 3).all pyIsSpace = true)

instance (r : Str) : Decidable (fenceEndHere r) := by
  unfold fenceEndHere; infer_instance

/-- Effect of `re.sub(r'\n?` three-backticks `\s*$', '', s, count=1)`: the
leftmost position where the end-anchored pattern matches has its whole
suffix (which the match covers entirely) removed; if no position matches the
string is unchanged. -/
def subTrailingFence : Str → Str
  | [] => []
  | c :: rest =>
    if fenceEndHere (c :: rest) then [] else c :: subTrailingFence rest

/-- Embedding of `_strip_code_fences` from quiz_app/services/quiz_builder.py:
early-return on a falsy (empty) string, then `strip()`, then the two single
`re.sub` substitutions, then a final `strip()`. -/
def _strip_code_fences (text : Str) : Str :=
  if text.isEmpty then text
  else pyStrip (subTrailingFence (subLeadingFence (pyStrip text)))

/-- Concrete fenced example from the spec, used as the C5 witness input. -/
def exampleFencedInner : Str :=
  "\x7b\"title\":\"T\",\"description\":\"D\",\"questions\":[...]\x7d".toList

/-! ## Python exceptions and dynamic values -/

/-- Python exception classes relevant to the quiz pipeline and views.
`validationError` models `rest_framework.exceptions.ValidationError`;
`invalidQuizError` models `InvalidQuizError(Exception)` from
quiz_app/services/quiz_builder.py (note: it is a plain `Exception`
subclass, not a `ValidationError`); the rest model builtin and library
exception classes. -/
inductive PyExc where
  | validationError (msg : String)
  | invalidQuizError (msg : String)
  | attributeError (msg : String)
  | fileNotFoundError (msg : String)
  | authenticationFailed (msg : String)
  | otherError (msg : String)
deriving DecidableEq, Repr

/-- A parsed JSON object, kept abstract as a list of key/value pairs: the
pipeline never inspects its fields, it only hands it to the serializer. -/
abbrev Obj := List (String × String)

/-- The dynamically typed value returned by `generate_quiz` as seen by
`build_quiz_from_youtube`: normally raw text, but the code also tries to
handle an already-parsed dict. -/
inductive GenVal where
  | str (s : Str)
  | dict (d : Obj)
deriving DecidableEq, Repr

/-- Python truthiness of a `GenVal` (`if not stripped:`): a string is falsy
iff empty, a dict is falsy iff empty. -/
def pyTruthy : GenVal → Bool
  | .str s => !s.isEmpty
  | .dict d => !d.isEmpty

/-- `_strip_code_fences` applied to the dynamically typed generator output:
a falsy value is returned unchanged by the early `if not text: return text`;
a non-empty string is fence-stripped; a non-empty dict reaches
`text.strip()` and raises `AttributeError` (dicts have no `strip`). -/
def stripCodeFencesDyn : GenVal → Except PyExc GenVal
  | .str s => .ok (.str (_strip_code_fences s))
  | .dict d =>
    if d.isEmpty then .ok (.dict d)
    else .error (.attributeError "dict object has no attribute strip")

/-! ## The pipeline orchestrator -/

/-- `os.remove`: removes the path from the filesystem (modelled as the list
of existing paths), raising `FileNotFoundError` if it does not exist. -/
def os_remove (fs : List String) (p : String) : Except PyExc (List String) :=
  if p ∈ fs then .ok (fs.erase p) else .error (.fileNotFoundError p)

/-- The `finally` block of `build_quiz_from_youtube`: if a temp path was
recorded, `os.remove` it, swallowing any exception (`except Exception:
pass`); the surrounding result is never affected. -/
def cleanupTemp (fs : List String) (temp : Option String) : List String :=
  match temp with
  | none => fs
  | some p =>
    match os_remove fs p with
    | .ok fs2 => fs2
    | .error _ => fs

/-- Embedding of `build_quiz_from_youtube` from
quiz_app/services/quiz_builder.py. External collaborators are parameters:
`download` models `download_audio_to_temp(url)` (on success the returned
temp path is created on disk), `transcribe` models `transcribe_audio`,
`generate` models `generate_quiz`, and `jsonLoads` models `json.loads`
(`none` meaning `json.JSONDecodeError`). Returns the pipeline result
(parsed quiz object or exception) and the final filesystem after the
`finally` cleanup. -/
def build_quiz_from_youtube (fs0 : List String)
    (download : Except PyExc String)
    (transcribe : String → Except PyExc String)
    (generate : String → Except PyExc GenVal)
    (jsonLoads : Str → Option Obj) :
    Except PyExc Obj × List String :=
  match download with
  | .error e => (.error e, fs0)
  | .ok p =>
    let fs1 := fs0 ++ [p]
    let res : Except PyExc Obj :=
      match transcribe p with
      | .error e => .error e
      | .ok t =>
        match generate t with
        | .error e => .error e
        | .ok quizText =>
          match stripCodeFencesDyn quizText with
          | .error e => .error e
          | .ok stripped =>
            if !pyTruthy stripped then
              .error (.invalidQuizError "Blank answer from the quiz generator.")
            else
              match stripped with
              | .dict d => .ok d
              | .str s =>
                match jsonLoads s with
                | some obj => .ok obj
                | none =>
                  .error (.invalidQuizError
                    "The response provided by the generator is not valid JSON.")
    (res, cleanupTemp fs1 (some p))

/-! ## The createQuiz view -/

/-- An HTTP response reduced to its status code and `detail` message. -/
structure HttpResponse where
  status : Nat
  detail : String
deriving DecidableEq, Repr

/-- The two `except` clauses of `QuizCreateAPIView.post`
(quiz_app/api/views.py): `except ValidationError as e` returns 400 with
`str(e)`; `except Exception` returns an opaque 500. -/
def dispatchException : PyExc → HttpResponse
  | .validationError m => ⟨400, m⟩
  | _ => ⟨500, "Internal Server Error."⟩

/-- The `try` body of `QuizCreateAPIView.post` after URL validation: run the
pipeline, validate/persist the generated payload (`persist` models
`QuizSerializer.is_valid(raise_exception=True)` plus `save()`), and return
201 on success; any exception raised anywhere in the body goes through the
two `except` clauses. -/
def quizCreate_post (buildResult : Except PyExc Obj)
    (persist : Obj → Except PyExc Nat) : HttpResponse :=
  match buildResult with
  | .error e => dispatchException e
  | .ok obj =>
    match persist obj with
    | .error e => dispatchException e
    | .ok _ => ⟨201, "created"⟩

/-! ## Question validation (QuestionSerializer.validate) -/

/-- The attrs dict seen by `QuestionSerializer.validate`
(quiz_app/api/serializers.py): `question_options` may be absent
(`attrs.get("question_options", [])` then yields `[]`) and `answer` may be
absent (`attrs.get("answer")` then yields `None`). -/
structure QuestionAttrs where
  question_title : String
  question_options : Option (List String)
  answer : Option String
deriving DecidableEq, Repr

/-- Python membership test `answer in options` where `answer` may be
`None` (never a member of a list of strings). -/
def pyAnswerMem (a : Option String) (options : List String) : Bool :=
  match a with
  | some s => options.contains s
  | none => false

/-- Embedding of `QuestionSerializer.validate`: reject unless the options
list has exactly 4 entries and the answer is one of them; otherwise return
the attrs unchanged. -/
def QuestionSerializer_validate (attrs : QuestionAttrs) :
    Except PyExc QuestionAttrs :=
  let options := attrs.question_options.getD []
  if options.length ≠ 4 then
    .error (.validationError "A question must have exactly 4 options.")
  else if !pyAnswerMem attrs.answer options then
    .error (.validationError "The answer must be one of the options.")
  else
    .ok attrs

/-! ## Quiz persistence (QuizSerializer.create) over the relational store -/

/-- Validated data for one question, as passed to
`Question.objects.create(quiz=quiz, **q)`. -/
structure QuestionData where
  question_title : String
  question_options : List String
  answer : String
deriving DecidableEq, Repr

/-- A persisted Question row (`quiz_app.models.Question`), owned by exactly
one Quiz through its foreign key. -/
structure QuestionRow where
  quizId : Nat
  question_title : String
  question_options : List String
  answer : String
deriving DecidableEq, Repr

/-- A persisted Quiz row (`quiz_app.models.Quiz`); `user` is its single
owner reference, the only ownership field the model declares. -/
structure QuizRow where
  id : Nat
  title : String
  description : String
  video_url : String
  user : Nat
deriving DecidableEq, Repr

/-- The relational store holding quiz and question rows. Django runs here
in its default autocommit mode: each `objects.create` call commits its row
at once (`QuizSerializer.create` opens no `transaction.atomic` block). -/
structure Store where
  quizzes : List QuizRow
  questions : List QuestionRow
deriving DecidableEq, Repr

/-- Validated data for a quiz as passed to `QuizSerializer.create`. The
`user_payload` field stands for a `user` key in the incoming request data:
the serializer declares `user` as read-only, so validation drops it and
`create` never reads it (ownership comes from the serializer context). -/
structure QuizInput where
  title : String
  description : String
  video_url : String
  questions : List QuestionData
  user_payload : Option Nat
deriving DecidableEq, Repr

/-- The Question row created for quiz `qid` from validated data `q`. -/
def questionRowOf (qid : Nat) (q : QuestionData) : QuestionRow :=
  ⟨qid, q.question_title, q.question_options, q.answer⟩

/-- The `for q in questions_data: Question.objects.create(quiz=quiz, **q)`
loop: rows are inserted one at a time; `insertFails` models a database
error raised while inserting a given question, which aborts the loop and
propagates, leaving the rows already inserted committed (autocommit). -/
def createQuestionRows (st : Store) (qid : Nat)
    (insertFails : QuestionData → Bool) :
    List QuestionData → Except PyExc Unit × Store
  | [] => (.ok (), st)
  | q :: rest =>
    if insertFails q then (.error (.otherError "question insert failed"), st)
    else
      createQuestionRows
        { st with questions := st.questions ++ [questionRowOf qid q] }
        qid insertFails rest

/-- Embedding of `QuizSerializer.create`: pop the questions from the
validated data, create the Quiz row under the context user
(`self.context.get("user")`) — the new row's primary key is the next free
id — then create the Question rows one by one. -/
def QuizSerializer_create (st : Store) (ctxUser : Nat) (data : QuizInput)
    (insertFails : QuestionData → Bool) : Except PyExc Nat × Store :=
  match createQuestionRows
      { st with quizzes := st.quizzes
          ++ [⟨st.quizzes.length, data.title, data.description,
               data.video_url, ctxUser⟩] }
      st.quizzes.length insertFails data.questions with
  | (.ok _, st2) => (.ok st.quizzes.length, st2)
  | (.error e, st2) => (.error e, st2)

/-- Question data used in the concrete persistence runs. -/
def exQ1 : QuestionData := ⟨"Q1?", ["A", "B", "C", "D"], "A"⟩

/-- Second question of the concrete persistence runs; its insert fails. -/
def exQ2 : QuestionData := ⟨"Q2?", ["E", "F", "G", "H"], "F"⟩

/-- Quiz input used in the concrete persistence runs. -/
def exQuizInput : QuizInput :=
  ⟨"T", "D", "https://youtu.be/dQw4w9WgXcQ", [exQ1, exQ2], none⟩

/-- Failure oracle of the concrete runs: inserting `exQ2` fails. -/
def exInsertFails (q : QuestionData) : Bool := q.question_title == "Q2?"

/-! ## Quiz detail PATCH (QuizDetailView.patch) -/

/-- A persisted quiz with its nested questions, as the detail view sees
it; `user` is its single owner. -/
structure QuizState where
  title : String
  description : String
  video_url : String
  user : Nat
  questions : List QuestionData
deriving DecidableEq, Repr

/-- Partial-update payload accepted by `PATCH /quizzes/{id}`. The writable
flat fields of `QuizSerializer` are `title`, `description` and the
write-only `url` (source `video_url`). A `user` key models an
attacker-supplied owner: the field is declared read-only, so validation
drops it. Nested `questions` writes are unsupported by the default
`ModelSerializer.update` and omitted here. -/
structure QuizPatchInput where
  title : Option String
  description : Option String
  url : Option String
  user : Option Nat
deriving DecidableEq, Repr

/-- Validation of a present `title` value: the model field is
`CharField(max_length=255)`, so a blank value or one longer than 255
characters is rejected. -/
def validTitle (t : String) : Bool :=
  decide (t ≠ "") && decide (t.length ≤ 255)

/-- Validation of a present `description` value (`TextField`, not blank). -/
def validDescription (d : String) : Bool := decide (d ≠ "")

/-- Field validation of a partial update: only the fields present in the
payload are validated (`partial=True` skips absent ones); `urlOk` is the
youtube-URL validator applied to a supplied `url`. -/
def patchFieldsValid (data : QuizPatchInput) (urlOk : String → Bool) : Bool :=
  (match data.title with | none => true | some t => validTitle t)
  && (match data.description with | none => true | some d => validDescription d)
  && (match data.url with | none => true | some u => urlOk u)

/-- Embedding of `QuizDetailView.patch` including the object permission
check (`IsQuizOwner`): a non-owner is rejected with 403 before the handler
body runs; otherwise the partial serializer validates exactly the supplied
fields, and on success the default `ModelSerializer.update` assigns exactly
the validated writable fields and saves (200); on validation failure the
quiz is unchanged (400). -/
def QuizDetailView_patch (quiz : QuizState) (requester : Nat)
    (data : QuizPatchInput) (urlOk : String → Bool) : Nat × QuizState :=
  if requester ≠ quiz.user then (403, quiz)
  else if patchFieldsValid data urlOk then
    (200, { quiz with
      title := data.title.getD quiz.title,
      description := data.description.getD quiz.description,
      video_url := data.url.getD quiz.video_url })
  else (400, quiz)

/-- Quiz state used by the concrete PATCH run. -/
def exQuiz : QuizState :=
  ⟨"Old", "D", "https://youtu.be/dQw4w9WgXcQ", 7, [exQ1, exQ2]⟩

/-! ## Cookie JWT auth: token refresh (CookieRefreshView) -/

/-- A `Set-Cookie` produced by `response.set_cookie`. -/
structure SetCookie where
  name : String
  value : String
  httponly : Bool
  secure : Bool
  samesite : String
deriving DecidableEq, Repr

/-- The refresh endpoint's response: status, detail message, the body's
`access` key if present, and the cookies set on the response. -/
structure RefreshResponse where
  status : Nat
  detail : String
  access : Option String
  cookies : List SetCookie
deriving DecidableEq, Repr

/-- `request.COOKIES.get(name)`: lookup in the request's cookie dict,
modelled as an association list. -/
def lookupCookie (cookies : List (String × String)) (name : String) :
    Option String :=
  match cookies.find? (fun kv => kv.1 == name) with
  | some kv => some kv.2
  | none => none

/-- Embedding of `CookieRefreshView.post` (auth_app/api/views.py): 400 when
the `refresh_token` cookie is absent; 401 when the SimpleJWT refresh
serializer (`refreshSerializer`, an external collaborator returning the new
access token) rejects the token (the bare `except` around
`is_valid(raise_exception=True)`); otherwise a 200 response carrying the
new access token in the body under the fixed key `access` and in an
`access_token` cookie with HttpOnly, SameSite=Lax and Secure outside
debug mode. -/
def CookieRefreshView_post (cookies : List (String × String))
    (refreshSerializer : String → Except PyExc String)
    (debug : Bool) : RefreshResponse :=
  match lookupCookie cookies "refresh_token" with
  | none => ⟨400, "Refresh token not found!", none, []⟩
  | some rt =>
    match refreshSerializer rt with
    | .error _ => ⟨401, "Refresh token invalid!", none, []⟩
    | .ok access =>
      ⟨200, "Token refreshed", some access,
       [⟨"access_token", access, true, !debug, "Lax"⟩]⟩

/-- Refresh serializer used by the concrete refresh scenarios. -/
def exRefreshSer (t : String) : Except PyExc String :=
  if t == "good-refresh" then .ok "new-access"
  else .error (.authenticationFailed "Token is invalid or expired")

/-! ## Cookie JWT auth: per-request authentication -/

/-- The validate-and-resolve tail of `authenticate` once a raw token has
been selected: `get_validated_token` (raising an AuthenticationFailed-class
`InvalidToken` on any validation failure) then `get_user` (raising when the
principal is missing or inactive). -/
def tokenAuthPath (raw : String)
    (getValidatedToken : String → Except PyExc String)
    (getUser : String → Except PyExc Nat) :
    Except PyExc (Option (Nat × String)) :=
  match getValidatedToken raw with
  | .error e => .error e
  | .ok vt =>
    match getUser vt with
    | .error e => .error e
    | .ok u => .ok (some (u, vt))

/-- Embedding of `CookieJWTAuthentication.authenticate` from
auth_app/authentication.py. SimpleJWT internals are parameters:
`getRawToken` models `get_raw_token(header)` (no token for a non-bearer
header, may also raise on a malformed one). The raw token is taken from
the authorization header first; only when that yields none is the
`access_token` cookie consulted; with no token at all the request is
anonymous (`ok none`, no error). -/
def CookieJWTAuthentication_authenticate (authHeader : Option String)
    (cookies : List (String × String))
    (getRawToken : String → Except PyExc (Option String))
    (getValidatedToken : String → Except PyExc String)
    (getUser : String → Except PyExc Nat) :
    Except PyExc (Option (Nat × String)) :=
  match (match authHeader with
         | none => Except.ok none
         | some h => getRawToken h) with
  | .error e => .error e
  | .ok rawFromHeader =>
    match (match rawFromHeader with
           | some t => some t
           | none => lookupCookie cookies "access_token") with
    | none => .ok none
    | some raw => tokenAuthPath raw getValidatedToken getUser

/-- Modelled from the spec: the Django settings module (not under src/)
selects which authentication class handles every request; the spec
describes the header-first, cookie-fallback behaviour, which is the class
`auth_app.authentication.CookieJWTAuthentication` embedded above (the
variant in core/common/authentication.py reads only the cookie and is not
the one the spec describes). -/
def configuredAuthenticate := CookieJWTAuthentication_authenticate

/-- Header parser used by the concrete authentication scenarios. -/
def exGetRawToken (h : String) : Except PyExc (Option String) :=
  if h == "Bearer headertok" then .ok (some "headertok") else .ok none

/-- Token validator used by the concrete authentication scenarios. -/
def exGetValidatedToken (t : String) : Except PyExc String :=
  if t == "headertok" || t == "cookietok" then .ok t
  else .error (.authenticationFailed "Token is invalid or expired")

/-- User resolver used by the concrete authentication scenarios. -/
def exGetUser (_ : String) : Except PyExc Nat := .ok 42

/-! ## Lemmas about the fence-stripping primitives -/

lemma pyIsSpace_btick : pyIsSpace btick = false := by decide

lemma pyStripLeft_cons_of_not_space {c : Char} (h : pyIsSpace c = false) (s : Str) :
    pyStripLeft (c :: s) = c :: s := by
  simp [pyStripLeft, List.dropWhile_cons, h]

lemma pyStripRight_concat_of_not_space {c : Char} (h : pyIsSpace c = false) (s : Str) :
    pyStripRight (s ++ [c]) = s ++ [c] := by
  simp [pyStripRight, List.dropWhile_cons, h]

lemma pyStrip_of_ends {c d : Char} (hc : pyIsSpace c = false) (hd : pyIsSpace d = false)
    (m : Str) : pyStrip (c :: (m ++ [d])) = c :: (m ++ [d]) := by
  rw [pyStrip, pyStripLeft_cons_of_not_space hc,
    show c :: (m ++ [d]) = (c :: m) ++ [d] from rfl,
    pyStripRight_concat_of_not_space hd]

lemma dropWhile_until_newline (lang : Str) (h : '\n' ∉ lang) (rest : Str) :
    (lang ++ '\n' :: rest).dropWhile (fun c => c != '\n') = '\n' :: rest := by
  induction lang with
  | nil => simp [List.dropWhile_cons]
  | cons a t ih =>
    have ha : a ≠ '\n' := fun e => h (e ▸ List.mem_cons_self a t)
    simp only [List.cons_append, List.dropWhile_cons, bne_iff_ne, ne_eq, ha,
      not_false_eq_true, if_true]
    exact ih fun hm => h (List.mem_cons_of_mem _ hm)

lemma subLeadingFence_fenced (lang rest : Str) (h : '\n' ∉ lang) :
    subLeadingFence (fence ++ lang ++ '\n' :: rest) = rest := by
  rw [subLeadingFence]
  have hsh : fence ++ lang ++ '\n' :: rest
      = btick :: btick :: btick :: (lang ++ '\n' :: rest) := by
    simp [fence]
  rw [hsh]
  have hdw : (btick :: btick :: btick :: (lang ++ '\n' :: rest)).dropWhile pyIsSpace
      = btick :: btick :: btick :: (lang ++ '\n' :: rest) := by
    simp [List.dropWhile_cons, pyIsSpace_btick]
  simp only [hdw, List.take_succ_cons, List.take_zero, List.drop_succ_cons, List.drop_zero]
  rw [if_pos (show [btick, btick, btick] = fence from rfl),
    dropWhile_until_newline lang h rest]
  rfl

lemma all_pyIsSpace_concat_btick (y : Str) : (y ++ [btick]).all pyIsSpace = false := by
  simp [List.all_append, pyIsSpace_btick]

lemma drop3_concat_btick_not_all_space (y : Str) (hy : 3 ≤ y.length) :
    ((y ++ [btick]).drop 3).all pyIsSpace = false := by
  rw [List.drop_append_of_le_length hy]
  exact all_pyIsSpace_concat_btick _

lemma fenceEndHere_cons_false (c : Char) (x : Str) :
    ¬ fenceEndHere (c :: (x ++ '\n' :: fence)) := by
  have hsh : c :: (x ++ '\n' :: fence)
      = ((c :: x) ++ ['\n', btick, btick]) ++ [btick] := by
    simp [fence]
  have htl : x ++ '\n' :: fence = (x ++ ['\n', btick, btick]) ++ [btick] := by
    simp [fence]
  intro hmatch
  rcases hmatch with ⟨-, hall⟩ | ⟨-, -, hall⟩
  · rw [hsh, drop3_concat_btick_not_all_space _ (by simp)] at hall
    exact Bool.false_ne_true hall
  · rw [List.tail_cons, htl, drop3_concat_btick_not_all_space _ (by simp)] at hall
    exact Bool.false_ne_true hall

lemma subTrailingFence_fenced : ∀ inner : Str,
    subTrailingFence (inner ++ '\n' :: fence) = inner
  | [] => by decide
  | c :: rest => by
    rw [List.cons_append, subTrailingFence,
      if_neg (fenceEndHere_cons_false c rest), subTrailingFence_fenced rest]

/-! ## Claim theorems -/

/-- C5: a raw generator text wrapped in a single leading fenced-code-block
marker (three backticks plus a newline-free language tag as the first line)
and a single trailing three-backtick marker on the last line strips to
exactly the inner content trimmed of surrounding whitespace. -/
theorem strip_code_fences_unwraps (lang inner : Str) (hlang : '\n' ∉ lang) :
    _strip_code_fences (fence ++ lang ++ '\n' :: (inner ++ '\n' :: fence))
      = pyStrip inner := by
  have h0 : (fence ++ lang ++ '\n' :: (inner ++ '\n' :: fence)).isEmpty = false := by
    simp [fence]
  have hsh : fence ++ lang ++ '\n' :: (inner ++ '\n' :: fence)
      = btick :: ((btick :: btick :: (lang ++ '\n' :: (inner ++ ['\n', btick, btick])))
          ++ [btick]) := by
    simp [fence]
  have h1 : pyStrip (fence ++ lang ++ '\n' :: (inner ++ '\n' :: fence))
      = fence ++ lang ++ '\n' :: (inner ++ '\n' :: fence) := by
    rw [hsh]; exact pyStrip_of_ends (by decide) (by decide) _
  rw [_strip_code_fences, h0]
  simp only [Bool.false_eq_true, if_false]
  rw [h1, subLeadingFence_fenced lang _ hlang, subTrailingFence_fenced]

/-- C5 witness: the spec's example input strips to exactly the inner JSON
text (which is already whitespace-trimmed). -/
theorem strip_code_fences_unwraps_witness :
    _strip_code_fences
        (fence ++ "json".toList ++ '\n' :: (exampleFencedInner ++ '\n' :: fence))
      = pyStrip exampleFencedInner
    ∧ pyStrip exampleFencedInner = exampleFencedInner :=
  ⟨strip_code_fences_unwraps "json".toList exampleFencedInner (by decide), by decide⟩

/-- C2 counterexample: a concrete createQuiz run in which the pipeline
raises InvalidQuizError (generator output is not JSON) is rendered by the
view with status 500, not 400 as claimed: `InvalidQuizError` is a plain
`Exception`, so it is caught by `except Exception`, not by
`except ValidationError`. -/
theorem invalid_quiz_rendered_500_not_400 :
    (build_quiz_from_youtube [] (.ok "/tmp/quizly_audio_1.m4a")
        (fun _ => .ok "transcript") (fun _ => .ok (.str "not json".toList))
        (fun _ => none)).1
      = .error (.invalidQuizError
          "The response provided by the generator is not valid JSON.")
    ∧ (quizCreate_post
        (build_quiz_from_youtube [] (.ok "/tmp/quizly_audio_1.m4a")
          (fun _ => .ok "transcript") (fun _ => .ok (.str "not json".toList))
          (fun _ => none)).1
        (fun _ => .ok 0))
      = ⟨500, "Internal Server Error."⟩ := by
  constructor <;> rfl

/-- C2 (amended): the view maps every InvalidQuiz-class pipeline failure to
an opaque 500 with the fixed generic message (the raw model text is never
included in the response body); the 400 branch is reserved for
Validation-class errors, whose message is the validation detail. -/
theorem invalid_quiz_maps_to_opaque_500 (m v : String)
    (persist : Obj → Except PyExc Nat) :
    quizCreate_post (.error (.invalidQuizError m)) persist
        = ⟨500, "Internal Server Error."⟩
    ∧ quizCreate_post (.error (.validationError v)) persist = ⟨400, v⟩ := by
  constructor <;> rfl

/-- C4: when the generation step returns an already-structured non-empty
dict, the parse step does not return it as-is: `_strip_code_fences` calls
`.strip()` on the dict, raising AttributeError, so the pipeline fails with
an unexpected exception instead of returning the object. -/
theorem dict_generator_output_raises_attribute_error :
    (build_quiz_from_youtube [] (.ok "/tmp/quizly_audio_2.m4a")
        (fun _ => .ok "transcript")
        (fun _ => .ok (.dict [("title", "T")])) (fun _ => none)).1
      = .error (.attributeError "dict object has no attribute strip") := by
  rfl

/-- C6: whenever the download step created a temporary audio file, the
`finally` block removes it on every exit path (the final filesystem equals
the initial one and no longer contains the path); the primary pipeline
outcome never depends on the filesystem, so a deletion failure cannot
change it; and deleting an already-absent path is swallowed by the
cleanup handler instead of raising. -/
theorem temp_file_cleanup (fs0 : List String) (p : String) (hp : p ∉ fs0)
    (transcribe : String → Except PyExc String)
    (generate : String → Except PyExc GenVal)
    (jsonLoads : Str → Option Obj) :
    (build_quiz_from_youtube fs0 (.ok p) transcribe generate jsonLoads).2 = fs0
    ∧ p ∉ (build_quiz_from_youtube fs0 (.ok p) transcribe generate jsonLoads).2
    ∧ (∀ fs0' : List String,
        (build_quiz_from_youtube fs0 (.ok p) transcribe generate jsonLoads).1
          = (build_quiz_from_youtube fs0' (.ok p) transcribe generate jsonLoads).1)
    ∧ cleanupTemp fs0 (some p) = fs0 := by
  have hfs : (build_quiz_from_youtube fs0 (.ok p) transcribe generate jsonLoads).2
      = fs0 := by
    show cleanupTemp (fs0 ++ [p]) (some p) = fs0
    simp [cleanupTemp, os_remove, List.erase_append_right _ hp]
  refine ⟨hfs, by rw [hfs]; exact hp, fun fs0' => rfl, ?_⟩
  simp [cleanupTemp, os_remove, hp]

/-- C6 witness: a concrete successful run starting from an empty filesystem
ends with an empty filesystem, and cleaning up a path that is already gone
is swallowed. -/
theorem temp_file_cleanup_witness :
    (build_quiz_from_youtube [] (.ok "/tmp/quizly_audio_3.m4a")
        (fun _ => .ok "transcript") (fun _ => .ok (.str "ok".toList))
        (fun _ => some [("title", "T")])).2 = []
    ∧ cleanupTemp [] (some "/tmp/quizly_audio_3.m4a") = [] :=
  ⟨(temp_file_cleanup [] "/tmp/quizly_audio_3.m4a" (by simp)
      (fun _ => .ok "transcript") (fun _ => .ok (.str "ok".toList))
      (fun _ => some [("title", "T")])).1,
   (temp_file_cleanup [] "/tmp/quizly_audio_3.m4a" (by simp)
      (fun _ => .ok "transcript") (fun _ => .ok (.str "ok".toList))
      (fun _ => some [("title", "T")])).2.2.2⟩

/-- C1 counterexample: a question with four identical options (not
distinct), and one with an empty-string option, both pass
`QuestionSerializer.validate`, so validation does not reject non-distinct
or empty options as claimed. -/
theorem duplicate_and_empty_options_pass_validation :
    QuestionSerializer_validate ⟨"Q?", some ["A", "A", "A", "A"], some "A"⟩
      = .ok ⟨"Q?", some ["A", "A", "A", "A"], some "A"⟩
    ∧ ¬ ["A", "A", "A", "A"].Nodup
    ∧ QuestionSerializer_validate ⟨"Q?", some ["A", "B", "C", ""], some "A"⟩
      = .ok ⟨"Q?", some ["A", "B", "C", ""], some "A"⟩
    ∧ "" ∈ ["A", "B", "C", ""] :=
  ⟨rfl, by decide, rfl, by decide⟩

/-- C1 (amended): `QuestionSerializer.validate` accepts a question exactly
when it has exactly 4 options and its answer is one of them; distinctness
and non-emptiness of the options are not checked. -/
theorem question_validate_iff (attrs : QuestionAttrs) :
    QuestionSerializer_validate attrs = .ok attrs
      ↔ ((attrs.question_options.getD []).length = 4
          ∧ ∃ a, attrs.answer = some a ∧ a ∈ attrs.question_options.getD []) := by
  rcases attrs with ⟨t, opts, ans⟩
  cases ans with
  | none =>
    simp only [QuestionSerializer_validate, pyAnswerMem]
    constructor
    · intro h
      split_ifs at h
      simp_all
    · rintro ⟨-, a, ha, -⟩
      cases ha
  | some a =>
    simp only [QuestionSerializer_validate, pyAnswerMem]
    constructor
    · intro h
      split_ifs at h with h1 h2
      refine ⟨not_not.mp h1, a, rfl, ?_⟩
      simpa using h2
    · rintro ⟨h1, a2, ha2, hmem⟩
      obtain rfl : a2 = a := by injection ha2 with e; exact e.symm
      rw [if_neg (by simpa using h1), if_neg (by simpa using hmem)]

lemma createQuestionRows_quizzes (qid : Nat) (f : QuestionData → Bool) :
    ∀ (qs : List QuestionData) (st : Store),
      (createQuestionRows st qid f qs).2.quizzes = st.quizzes := by
  intro qs
  induction qs with
  | nil => intro st; rfl
  | cons q rest ih =>
    intro st
    simp only [createQuestionRows]
    split
    · rfl
    · exact ih _

lemma createQuestionRows_of_split (qid : Nat) (f : QuestionData → Bool)
    (q : QuestionData) (post : List QuestionData) (hq : f q = true) :
    ∀ (pre : List QuestionData), (∀ x ∈ pre, f x = false) → ∀ st : Store,
      createQuestionRows st qid f (pre ++ q :: post)
        = (.error (.otherError "question insert failed"),
           { st with questions := st.questions ++ pre.map (questionRowOf qid) }) := by
  intro pre
  induction pre with
  | nil =>
    intro _ st
    simp [createQuestionRows, hq]
  | cons x pre ih =>
    intro hpre st
    have hx : f x = false := hpre x (List.mem_cons_self x pre)
    simp only [List.cons_append, createQuestionRows, hx, Bool.false_eq_true, if_false,
      List.append_eq]
    rw [ih (fun y hy => hpre y (List.mem_cons_of_mem _ hy))]
    simp

lemma QuizSerializer_create_quizzes (st : Store) (u : Nat) (d : QuizInput)
    (f : QuestionData → Bool) :
    (QuizSerializer_create st u d f).2.quizzes
      = st.quizzes
        ++ [⟨st.quizzes.length, d.title, d.description, d.video_url, u⟩] := by
  unfold QuizSerializer_create
  have h2 := createQuestionRows_quizzes st.quizzes.length f d.questions
    { st with quizzes := st.quizzes
        ++ [⟨st.quizzes.length, d.title, d.description, d.video_url, u⟩] }
  rcases hr : createQuestionRows
      { st with quizzes := st.quizzes
          ++ [⟨st.quizzes.length, d.title, d.description, d.video_url, u⟩] }
      st.quizzes.length f d.questions with ⟨e, st2⟩
  rw [hr] at h2
  cases e <;> simpa [hr] using h2

/-- C3 counterexample: when creating the second Question fails, the
exception propagates but the already-committed Quiz row and first Question
row remain in the store — persistence is not all-or-nothing. -/
theorem failed_question_insert_leaves_quiz_behind :
    (QuizSerializer_create ⟨[], []⟩ 7 exQuizInput exInsertFails).1
      = .error (.otherError "question insert failed")
    ∧ (QuizSerializer_create ⟨[], []⟩ 7 exQuizInput exInsertFails).2
      = ⟨[⟨0, "T", "D", "https://youtu.be/dQw4w9WgXcQ", 7⟩],
         [⟨0, "Q1?", ["A", "B", "C", "D"], "A"⟩]⟩ :=
  ⟨rfl, rfl⟩

/-- C3 (amended): persistence is sequential without a transaction: the
Quiz row is committed first, then the Questions one by one; if inserting
a question fails, the error propagates while the Quiz row and every
question inserted before the failing one remain in the store. -/
theorem quiz_create_not_atomic (st : Store) (user : Nat) (data : QuizInput)
    (f : QuestionData → Bool) (pre post : List QuestionData) (q : QuestionData)
    (hsplit : data.questions = pre ++ q :: post)
    (hpre : ∀ x ∈ pre, f x = false) (hq : f q = true) :
    (QuizSerializer_create st user data f).1
      = .error (.otherError "question insert failed")
    ∧ (QuizSerializer_create st user data f).2.quizzes
      = st.quizzes
        ++ [⟨st.quizzes.length, data.title, data.description, data.video_url, user⟩]
    ∧ (QuizSerializer_create st user data f).2.questions
      = st.questions ++ pre.map (questionRowOf st.quizzes.length) := by
  unfold QuizSerializer_create
  rw [hsplit, createQuestionRows_of_split _ f q post hq pre hpre]
  exact ⟨rfl, rfl, rfl⟩

/-- C3 witness: the amended statement applied to the concrete run in which
the second question insert fails. -/
theorem quiz_create_not_atomic_witness :
    (QuizSerializer_create ⟨[], []⟩ 7 exQuizInput exInsertFails).1
      = .error (.otherError "question insert failed")
    ∧ (QuizSerializer_create ⟨[], []⟩ 7 exQuizInput exInsertFails).2.quizzes
      = (⟨[], []⟩ : Store).quizzes
        ++ [⟨(⟨[], []⟩ : Store).quizzes.length, exQuizInput.title,
             exQuizInput.description, exQuizInput.video_url, 7⟩]
    ∧ (QuizSerializer_create ⟨[], []⟩ 7 exQuizInput exInsertFails).2.questions
      = (⟨[], []⟩ : Store).questions
        ++ [exQ1].map (questionRowOf (⟨[], []⟩ : Store).quizzes.length) :=
  quiz_create_not_atomic ⟨[], []⟩ 7 exQuizInput exInsertFails [exQ1] [] exQ2
    rfl (by decide) (by decide)

/-- C9: a PATCH by the owner whose body carries only a valid new title
returns 200, updates the title to the new value, and leaves the questions
(and every other field) unchanged. -/
theorem patch_title_only_updates_title (quiz : QuizState) (t : String)
    (urlOk : String → Bool) (ht : validTitle t = true) :
    (QuizDetailView_patch quiz quiz.user ⟨some t, none, none, none⟩ urlOk).1 = 200
    ∧ (QuizDetailView_patch quiz quiz.user ⟨some t, none, none, none⟩ urlOk).2.title = t
    ∧ (QuizDetailView_patch quiz quiz.user
        ⟨some t, none, none, none⟩ urlOk).2.questions = quiz.questions
    ∧ (QuizDetailView_patch quiz quiz.user ⟨some t, none, none, none⟩ urlOk).2
      = { quiz with title := t } := by
  refine ⟨?_, ?_, ?_, ?_⟩ <;> simp [QuizDetailView_patch, patchFieldsValid, ht]

/-- C9 witness: the owner patches `exQuiz` with the title "New". -/
theorem patch_title_only_updates_title_witness :
    (QuizDetailView_patch exQuiz exQuiz.user
        ⟨some "New", none, none, none⟩ (fun _ => true)).1 = 200
    ∧ (QuizDetailView_patch exQuiz exQuiz.user
        ⟨some "New", none, none, none⟩ (fun _ => true)).2.title = "New"
    ∧ (QuizDetailView_patch exQuiz exQuiz.user
        ⟨some "New", none, none, none⟩ (fun _ => true)).2.questions
      = exQuiz.questions
    ∧ (QuizDetailView_patch exQuiz exQuiz.user
        ⟨some "New", none, none, none⟩ (fun _ => true)).2
      = { exQuiz with title := "New" } :=
  patch_title_only_updates_title exQuiz "New" (fun _ => true) (by decide)

/-- C10: every Quiz row ever created by `QuizSerializer.create` carries
exactly one owner, the context (authenticated) user — whatever `user`
value the payload may have carried — and no PATCH through the public API
can change the owner: the resulting quiz's `user` equals the original on
every path (403, 400 and 200 alike), for every payload. -/
theorem owner_only_from_context (st : Store) (ctxUser : Nat) (data : QuizInput)
    (f : QuestionData → Bool) (quiz : QuizState) (requester : Nat)
    (pdata : QuizPatchInput) (urlOk : String → Bool) :
    (QuizSerializer_create st ctxUser data f).2.quizzes
      = st.quizzes
        ++ [⟨st.quizzes.length, data.title, data.description,
             data.video_url, ctxUser⟩]
    ∧ (QuizDetailView_patch quiz requester pdata urlOk).2.user = quiz.user := by
  refine ⟨QuizSerializer_create_quizzes st ctxUser data f, ?_⟩
  unfold QuizDetailView_patch
  split_ifs <;> rfl

/-- C7: refresh without the cookie is 400; with a rejected (invalid or
expired) token it is 401; with a valid one it is a 200 success whose body
contains the new access token under the key `access` and which sets an
`access_token` cookie with HttpOnly, SameSite=Lax and Secure outside
debug. -/
theorem refresh_endpoint_spec (cookies : List (String × String))
    (ser : String → Except PyExc String) (debug : Bool) :
    (lookupCookie cookies "refresh_token" = none →
      CookieRefreshView_post cookies ser debug
        = ⟨400, "Refresh token not found!", none, []⟩)
    ∧ (∀ rt e, lookupCookie cookies "refresh_token" = some rt →
        ser rt = .error e →
        CookieRefreshView_post cookies ser debug
          = ⟨401, "Refresh token invalid!", none, []⟩)
    ∧ (∀ rt a, lookupCookie cookies "refresh_token" = some rt →
        ser rt = .ok a →
        (CookieRefreshView_post cookies ser debug).status = 200
        ∧ (CookieRefreshView_post cookies ser debug).access = some a
        ∧ (CookieRefreshView_post cookies ser debug).cookies
          = [⟨"access_token", a, true, !debug, "Lax"⟩]) := by
  refine ⟨?_, ?_, ?_⟩
  · intro h
    simp [CookieRefreshView_post, h]
  · intro rt e h he
    simp [CookieRefreshView_post, h, he]
  · intro rt a h ha
    simp [CookieRefreshView_post, h, ha]

/-- C7 witness: the three scenarios at concrete cookie dicts. -/
theorem refresh_endpoint_spec_witness :
    CookieRefreshView_post [] exRefreshSer false
      = ⟨400, "Refresh token not found!", none, []⟩
    ∧ CookieRefreshView_post [("refresh_token", "bad")] exRefreshSer false
      = ⟨401, "Refresh token invalid!", none, []⟩
    ∧ (CookieRefreshView_post [("refresh_token", "good-refresh")]
        exRefreshSer false).status = 200
    ∧ (CookieRefreshView_post [("refresh_token", "good-refresh")]
        exRefreshSer false).access = some "new-access"
    ∧ (CookieRefreshView_post [("refresh_token", "good-refresh")]
        exRefreshSer false).cookies
      = [⟨"access_token", "new-access", true, !false, "Lax"⟩] := by
  have h3 := (refresh_endpoint_spec [("refresh_token", "good-refresh")]
    exRefreshSer false).2.2 "good-refresh" "new-access" rfl rfl
  exact ⟨(refresh_endpoint_spec [] exRefreshSer false).1 rfl,
    (refresh_endpoint_spec [("refresh_token", "bad")] exRefreshSer false).2.1
      "bad" (.authenticationFailed "Token is invalid or expired") rfl rfl,
    h3.1, h3.2.1, h3.2.2⟩

/-- C8: per-request authentication prefers a bearer token from the
authorization header; only when the header yields no token does it fall
back to the `access_token` cookie; with neither present the request is
anonymous (`ok none`, no error raised); and a present-but-invalid token
makes authentication fail with the validator's AuthenticationFailed-class
error. -/
theorem authenticate_header_first (hdr : Option String)
    (cookies : List (String × String))
    (grt : String → Except PyExc (Option String))
    (gvt : String → Except PyExc String) (gu : String → Except PyExc Nat) :
    (hdr = none → lookupCookie cookies "access_token" = none →
      configuredAuthenticate hdr cookies grt gvt gu = .ok none)
    ∧ (∀ h t, hdr = some h → grt h = .ok (some t) →
      configuredAuthenticate hdr cookies grt gvt gu = tokenAuthPath t gvt gu)
    ∧ (∀ t, hdr = none → lookupCookie cookies "access_token" = some t →
      configuredAuthenticate hdr cookies grt gvt gu = tokenAuthPath t gvt gu)
    ∧ (∀ h, hdr = some h → grt h = .ok none →
      configuredAuthenticate hdr cookies grt gvt gu
        = (match lookupCookie cookies "access_token" with
           | none => .ok none
           | some t => tokenAuthPath t gvt gu))
    ∧ (∀ t e, gvt t = .error e → tokenAuthPath t gvt gu = .error e) := by
  refine ⟨?_, ?_, ?_, ?_, ?_⟩
  · intro h1 h2
    simp [configuredAuthenticate, CookieJWTAuthentication_authenticate, h1, h2]
  · intro h t h1 h2
    simp [configuredAuthenticate, CookieJWTAuthentication_authenticate, h1, h2]
  · intro t h1 h2
    simp [configuredAuthenticate, CookieJWTAuthentication_authenticate, h1, h2]
  · intro h h1 h2
    cases hc : lookupCookie cookies "access_token" <;>
      simp [configuredAuthenticate, CookieJWTAuthentication_authenticate, h1, h2, hc]
  · intro t e h
    simp [tokenAuthPath, h]

/-- C8 witness: the anonymous, header, cookie-fallback and invalid-token
scenarios at concrete requests. -/
theorem authenticate_header_first_witness :
    configuredAuthenticate none [] exGetRawToken exGetValidatedToken exGetUser
      = .ok none
    ∧ configuredAuthenticate (some "Bearer headertok")
        [("access_token", "cookietok")] exGetRawToken exGetValidatedToken exGetUser
      = tokenAuthPath "headertok" exGetValidatedToken exGetUser
    ∧ configuredAuthenticate none [("access_token", "cookietok")]
        exGetRawToken exGetValidatedToken exGetUser
      = tokenAuthPath "cookietok" exGetValidatedToken exGetUser
    ∧ tokenAuthPath "badtok" exGetValidatedToken exGetUser
      = .error (.authenticationFailed "Token is invalid or expired") :=
  ⟨(authenticate_header_first none [] exGetRawToken exGetValidatedToken
      exGetUser).1 rfl rfl,
   (authenticate_header_first (some "Bearer headertok")
      [("access_token", "cookietok")] exGetRawToken exGetValidatedToken
      exGetUser).2.1 "Bearer headertok" "headertok" rfl rfl,
   (authenticate_header_first none [("access_token", "cookietok")]
      exGetRawToken exGetValidatedToken exGetUser).2.2.1 "cookietok" rfl rfl,
   (authenticate_header_first none [] exGetRawToken exGetValidatedToken
      exGetUser).2.2.2.2 "badtok"
      (.authenticationFailed "Token is invalid or expired") rfl⟩

end Quizly
